import Mathlib

/-!
Verification of the `DischargeDiffuser` component
(`src/landlab/components/discharge_diffuser/diffuse_by_discharge.py`).

The development has three layers:

1. a semantic shallow embedding of the potential solver of the first
   `run_one_step` definition (lines 183-305): the per-link gradient and
   per-node partition arrays, the Jacobi sweep of the potential field `K`,
   the while-loop iterates and their mismatch, and the discharge
   post-processing (upwind selection, per-node discharge);

2. a model of the module text needed for the syntactic claims: the four
   defective source lines embedded verbatim, a Python tokenizer restricted
   to the character set of those lines, sound necessary-condition checkers
   for the Python grammar, the class body as an ordered list of method
   definitions, and a first-pass name-binding scan of the solver body;

3. theorems settling each claim, with witnesses and counterexamples.

Grid topology accessors (`links_at_node`, `neighbors_at_node`,
`active_link_dirs_at_node`, `calc_grad_at_link`,
`map_value_at_max_node_to_link`, the diagonal accessors, the `Component`
base class) are landlab code that is not part of the sources under
verification; they are modelled from the spec where marked.

All real arithmetic is embedded over `ℚ`.
-/

namespace DiffuseByDischarge

/-- Node boundary classification (spec section 3: core, fixed-value,
fixed-gradient, closed). -/
inductive NodeStatus where
  | core
  | fixedValue
  | fixedGradient
  | closed
  deriving DecidableEq

/-- Modelled from the spec: the grid topology adapter (spec sections 2 and 6),
an external collaborator of the component.  `inc i` lists, for each incident
link position of node `i`, the triple `(link id, active link direction,
neighbor node id)` - the positionally aligned landlab arrays
`links_at_node`, `active_link_dirs_at_node` and `neighbors_at_node`.
A direction of `0` marks a missing (sentinel) or inactive position, whose
contributions the source zeroes by multiplying with the direction. -/
structure Grid where
  numNodes : ℕ
  numLinks : ℕ
  fromnode : Fin numLinks → Fin numNodes
  tonode : Fin numLinks → Fin numNodes
  length_of_link : Fin numLinks → ℚ
  link_is_active : Fin numLinks → Bool
  inc : Fin numNodes → List (Fin numLinks × ℤ × Fin numNodes)
  status_at_node : Fin numNodes → NodeStatus

/-- Modelled from the spec: well-formedness of the grid adapter data
(spec sections 3 and 6).  Link lengths are positive; an incidence entry with
a nonzero direction is `+1` exactly when the node is the link's from-node
(the link points away) and `-1` exactly when it is the to-node, the recorded
neighbor is the opposite endpoint, and the link is active; all incident
active directions of a closed node are `0` (closed nodes receive no flow,
spec glossary). -/
def WF (G : Grid) : Prop :=
  (∀ l : Fin G.numLinks, 0 < G.length_of_link l) ∧
  (∀ i : Fin G.numNodes, ∀ t ∈ G.inc i,
      t.2.1 = 0 ∨
      (t.2.1 = 1 ∧ G.fromnode t.1 = i ∧ G.tonode t.1 = t.2.2 ∧
        G.link_is_active t.1 = true) ∨
      (t.2.1 = -1 ∧ G.tonode t.1 = i ∧ G.fromnode t.1 = t.2.2 ∧
        G.link_is_active t.1 = true)) ∧
  (∀ i : Fin G.numNodes, G.status_at_node i = NodeStatus.closed →
      ∀ t ∈ G.inc i, t.2.1 = 0)

instance (G : Grid) : Decidable (WF G) := by
  unfold WF
  exact inferInstance

/-- The floor/regularization constant `_min_slope_thresh = 1.e-24`
(source line 117). -/
def min_slope_thresh : ℚ := 1 / 10 ^ 24

/-- The convergence tolerance `1.e-6` of the while loops
(source lines 241 and 265). -/
def tol : ℚ := 1 / 10 ^ 6

/-- Modelled from the spec: landlab's `grid.calc_grad_at_link(z)`
(used at source line 224) is not part of the verified sources; spec
section 3 fixes the convention: (elevation at from-node minus elevation at
to-node) divided by link length, with the sign fixed by the canonical
from/to ordering of the link. -/
def calc_grad_at_link (G : Grid) (z : Fin G.numNodes → ℚ)
    (l : Fin G.numLinks) : ℚ :=
  (z (G.fromnode l) - z (G.tonode l)) / G.length_of_link l

/-- `link_grad_at_node_w_dir` (source lines 231-232): per incident link
position of node `i`, the link gradient multiplied by the active link
direction, so that a positive entry points downhill away from `i`. -/
def link_grad_at_node_w_dir (G : Grid) (z : Fin G.numNodes → ℚ)
    (i : Fin G.numNodes) : List ℚ :=
  (G.inc i).map (fun t => calc_grad_at_link G z t.1 * (t.2.1 : ℚ))

/-- `outgoing_sum` (source lines 236-237): the per-node sum of the
zero-clipped directed gradients plus the floor constant. -/
def outgoing_sum (G : Grid) (z : Fin G.numNodes → ℚ)
    (i : Fin G.numNodes) : ℚ :=
  ((link_grad_at_node_w_dir G z i).map (fun x => max x 0)).sum
    + min_slope_thresh

/-- `pos_incoming_link_grads` (source line 238): the zero-clipped negated
directed gradients, positive where the neighbor is higher. -/
def pos_incoming_link_grads (G : Grid) (z : Fin G.numNodes → ℚ)
    (i : Fin G.numNodes) : List ℚ :=
  (link_grad_at_node_w_dir G z i).map (fun x => max (-x) 0)

/-- `incoming_K_sum` (source lines 242-244): the elementwise product of
`pos_incoming_link_grads` with `K` at the positionally aligned neighbors
(`K_link_ends = self._K[grid.neighbors_at_node]`), summed, plus the floor
constant. -/
def incoming_K_sum (G : Grid) (z : Fin G.numNodes → ℚ)
    (K : Fin G.numNodes → ℚ) (i : Fin G.numNodes) : ℚ :=
  (List.zipWith (fun w t => w * K t.2.2)
    (pos_incoming_link_grads G z i) (G.inc i)).sum + min_slope_thresh

/-- One sweep of the while loop (source line 245):
`self._K[:] = (incoming_K_sum + Qwater_in)/outgoing_sum`, every node
recomputed from the previous iterate.  The name `Qwater_in` is unbound in
the source (claim C10); it is taken here as the per-node external water
influx parameter, which is what the spec formula (section 4.2) calls
`Qwater_in[i]`. -/
def sweep (G : Grid) (z Qwater_in : Fin G.numNodes → ℚ)
    (K : Fin G.numNodes → ℚ) : Fin G.numNodes → ℚ :=
  fun i => (incoming_K_sum G z K i + Qwater_in i) / outgoing_sum G z i

/-- The iterates of the while loop (source lines 241-247): `kIter t` is the
potential field after `t` sweeps, seeded with `K0`. -/
def kIter (G : Grid) (z Qw K0 : Fin G.numNodes → ℚ) :
    ℕ → Fin G.numNodes → ℚ
  | 0 => K0
  | t + 1 => sweep G z Qw (kIter G z Qw K0 t)

/-- The loop's `mismatch` after iteration `t ≥ 1` (source line 246): the sum
of squared differences between successive iterates.  On the first pass the
source reads the unbound name `prev_K` (claim C10); it is modelled as the
seed iterate, per the spec's "sum of squared differences between successive
K iterates". -/
def mismatch (G : Grid) (z Qw K0 : Fin G.numNodes → ℚ) (t : ℕ) : ℚ :=
  Finset.univ.sum
    (fun i => (kIter G z Qw K0 t i - kIter G z Qw K0 (t - 1) i) ^ 2)

/-- The while loop (source lines 241-247) exits iff some iteration `t ≥ 1`
achieves `mismatch ≤ tol`; the initial `mismatch = 10000.` (line 191)
forces at least one iteration. -/
def LoopTerminates (G : Grid) (z Qw K0 : Fin G.numNodes → ℚ) : Prop :=
  ∃ t : ℕ, 1 ≤ t ∧ mismatch G z Qw K0 t ≤ tol

/-- Modelled from the spec: landlab's
`grid.map_value_at_max_node_to_link(z, K)` (source lines 249 and 278) is
not part of the verified sources; per the spec glossary the upwind value is
the value at whichever of the link's two endpoints is topographically
higher (equal elevations resolve to the to-node). -/
def upwind_K (G : Grid) (z K : Fin G.numNodes → ℚ)
    (l : Fin G.numLinks) : ℚ :=
  if z (G.tonode l) < z (G.fromnode l) then K (G.fromnode l)
  else K (G.tonode l)

/-- Per-link discharge of the non-diagonal branch (source lines 250-251):
`upwind_K * g` for every link, then links whose status is `INACTIVE_LINK`
are forced to zero. -/
def discharges_at_link (G : Grid) (z K : Fin G.numNodes → ℚ)
    (l : Fin G.numLinks) : ℚ :=
  if G.link_is_active l
  then upwind_K G z K l * calc_grad_at_link G z l
  else 0

/-- Modelled from the spec: the diagonal-link accessors
(`_diag_link_fromnode`, `_diag_link_tonode`,
`_length_of_link_with_diagonals`, `_all_d8_inactive_links`; source lines
254-286) are grid adapter data not part of the verified sources. -/
structure DiagTopo (G : Grid) where
  numDiagLinks : ℕ
  diag_fromnode : Fin numDiagLinks → Fin G.numNodes
  diag_tonode : Fin numDiagLinks → Fin G.numNodes
  diag_length : Fin numDiagLinks → ℚ
  diag_d8_active : Fin numDiagLinks → Bool

/-- The diagonal gradient `gd` (source lines 256-257):
`(z[tonode] - z[fromnode]) / length`, straight from the source. -/
def diag_grad (G : Grid) (D : DiagTopo G) (z : Fin G.numNodes → ℚ)
    (dl : Fin D.numDiagLinks) : ℚ :=
  (z (D.diag_tonode dl) - z (D.diag_fromnode dl)) / D.diag_length dl

/-- `upwind_diag_K` (source lines 279-282):
`np.where(z[tonode] > z[fromnode], K[tonode], K[fromnode])`. -/
def upwind_diag_K (G : Grid) (D : DiagTopo G) (z K : Fin G.numNodes → ℚ)
    (dl : Fin D.numDiagLinks) : ℚ :=
  if z (D.diag_fromnode dl) < z (D.diag_tonode dl) then K (D.diag_tonode dl)
  else K (D.diag_fromnode dl)

/-- Per-diagonal-link discharge of the diagonal branch (source lines
284-286): `upwind_diag_K * gd`, then d8-inactive links forced to zero. -/
def discharges_at_diag_link (G : Grid) (D : DiagTopo G)
    (z K : Fin G.numNodes → ℚ) (dl : Fin D.numDiagLinks) : ℚ :=
  if D.diag_d8_active dl
  then upwind_diag_K G D z K dl * diag_grad G D z dl
  else 0

/-- Per-node discharge (source line 288):
`np.multiply(self._K, outgoing_sum, out=self._Qw)` - the node's potential
times its outgoing-sum-with-floor, stored into the internal `_Qw` buffer. -/
def discharge_at_node (G : Grid) (z K : Fin G.numNodes → ℚ)
    (i : Fin G.numNodes) : ℚ :=
  K i * outgoing_sum G z i

/-- The right-hand side numerator of claim C1, written as the spec states it
(section 4.2): the sum over the (active-direction) neighbors `j` of
`max(0, g_ij) * K[j]`, where `g_ij = (z[j] - z[i]) / length` is the gradient
from neighbor `j` into `i` (positive when `j` is higher), plus the floor,
plus `Qwater_in[i]`. -/
def claim_numerator (G : Grid) (z Qw K : Fin G.numNodes → ℚ)
    (i : Fin G.numNodes) : ℚ :=
  ((G.inc i).map (fun t =>
      if t.2.1 = 0 then 0
      else max 0 ((z t.2.2 - z i) / G.length_of_link t.1) * K t.2.2)).sum
    + min_slope_thresh + Qw i

/-- The right-hand side denominator of claim C1, written as the spec states
it: the sum over the (active-direction) neighbors `j` of `max(0, g_ji)`,
where `g_ji = (z[i] - z[j]) / length`, plus the floor. -/
def claim_denominator (G : Grid) (z : Fin G.numNodes → ℚ)
    (i : Fin G.numNodes) : ℚ :=
  ((G.inc i).map (fun t =>
      if t.2.1 = 0 then 0
      else max 0 ((z i - z t.2.2) / G.length_of_link t.1))).sum
    + min_slope_thresh

/-- The number of distinct elevation values strictly above node `i`; the
induction measure for the termination argument of claim C2. -/
def rank (G : Grid) (z : Fin G.numNodes → ℚ) (i : Fin G.numNodes) : ℕ :=
  ((Finset.univ.image z).filter (fun e => z i < e)).card

/-- Modelled from the spec: the grid facts that the constructor's
configuration validation consults (raster-ness and the 2D node shape, spec
sections 6 and 7), together with the count of non-closed nodes, recorded so
that theorems can state what the validation does not consult. -/
structure GridInfo where
  is_raster : Bool
  number_of_node_rows : ℕ
  number_of_node_columns : ℕ
  open_node_count : ℕ

/-- The configuration validation performed by `__init__` (source lines
124-131): for a raster grid, assert at least 3 node rows and at least
3 node columns; then assert that the grid was a raster.  Source line 131
reads `assert self._raster = True`, which is a syntax error (claim C8); its
evident intent, the equality test, is modelled here. -/
def init_validation_accepts (g : GridInfo) : Bool :=
  (if g.is_raster
   then decide (3 ≤ g.number_of_node_rows)
     && decide (3 ≤ g.number_of_node_columns)
   else true)
  && g.is_raster

/-! Layer 2: the module text, the class body, and the name-binding model. -/

/-- Identifier characters of the Python lexer: letters, digits, underscore. -/
def identChar (c : Char) : Bool := c.isAlphanum || c = '_'

/-- Raw tokenization of one source line over the character set actually
occurring in the embedded lines (identifiers, spaces, a trailing `#`
comment, and single-character delimiters); string literals do not occur in
the scanned lines. -/
def rawTokens : List Char → List Char → List String
  | acc, [] => if acc.isEmpty then [] else [String.mk acc.reverse]
  | acc, c :: cs =>
    if identChar c then rawTokens (c :: acc) cs
    else
      (if acc.isEmpty then [] else [String.mk acc.reverse]) ++
      (if c = ' ' then rawTokens [] cs
       else if c = '#' then []
       else String.mk [c] :: rawTokens [] cs)

/-- Merge two-character operators (`==`, `<=`, `>=`, `!=`, `:=`, `+=`, `-=`,
`*=`, `/=`) so that a remaining `=` token is a bare assignment `=`. -/
def mergeOps : List String → List String
  | a :: "=" :: ts =>
    if a = "=" || a = "<" || a = ">" || a = "!" || a = ":" || a = "+"
        || a = "-" || a = "*" || a = "/"
    then (a ++ "=") :: mergeOps ts
    else a :: mergeOps ("=" :: ts)
  | t :: ts => t :: mergeOps ts
  | [] => []

/-- Python token stream of one source line. -/
def pyTokens (s : String) : List String := mergeOps (rawTokens [] s.toList)

/-- Is there a bare `=` token at bracket depth 0? -/
def hasBareEqAtDepth : ℕ → List String → Bool
  | _, [] => false
  | d, t :: ts =>
    if t = "(" || t = "[" then hasBareEqAtDepth (d + 1) ts
    else if t = ")" || t = "]" then hasBareEqAtDepth (d - 1) ts
    else if t = "=" && d = 0 then true
    else hasBareEqAtDepth d ts

/-- Does the token start with an identifier character (so that a following
`[` opens a subscript rather than a list display)? -/
def nameToken (t : String) : Bool :=
  match t.toList with
  | c :: _ => identChar c
  | [] => false

/-- Is some `[` that opens a subscript (it follows an identifier, `)` or
`]`) immediately closed by `]`?  The Python grammar requires a non-empty
subscript list, so an empty subscript is invalid. -/
def hasEmptySubscript : List String → Bool
  | a :: "[" :: "]" :: ts =>
    if nameToken a || a = ")" || a = "]" then true
    else hasEmptySubscript ("[" :: "]" :: ts)
  | _ :: ts => hasEmptySubscript ts
  | [] => false

/-- Sound invalidity detector for one statement line, implementing two
necessary conditions of the Python 3 grammar (for lines without string
literals, braces or `lambda`, which holds for every line it is applied to):
an `assert` statement's body consists of expressions, in which a bare `=`
token cannot occur at bracket depth 0; and a subscript cannot be empty. -/
def statementGrammarViolation (s : String) : Bool :=
  (match pyTokens s with
   | "assert" :: body =>
       !(pyTokens s).contains "lambda" && hasBareEqAtDepth 0 body
   | _ => false)
  || hasEmptySubscript (pyTokens s)

/-- Tail of a dotted name: `ident (. ident)*`. -/
def dottedTail : List String → Bool
  | [t] => nameToken t
  | t :: "." :: ts => nameToken t && dottedTail ts
  | _ => false

/-- Is the line a bare attribute expression statement, i.e. a dotted name
with at least one dot and nothing else? -/
def bareAttributeExprStmt (s : String) : Bool :=
  match pyTokens s with
  | t :: "." :: ts => nameToken t && dottedTail ts
  | _ => false

/-- Source line 131 of `diffuse_by_discharge.py`, verbatim. -/
def line_131 : String := "        assert self._raster = True  # ...for now"

/-- Source line 178 of `diffuse_by_discharge.py`, verbatim. -/
def line_178 : String := "        self._"

/-- Source line 217 of `diffuse_by_discharge.py`, verbatim. -/
def line_217 : String := "        offset_slopes1[]"

/-- Source line 218 of `diffuse_by_discharge.py`, verbatim (it ends with a
trailing space after the `=`). -/
def line_218 : String := "        sly[] = "

/-- The sampled statement lines of the module (131, 178, 217, 218). -/
def moduleStatementLines : List String := [line_131, line_178, line_217, line_218]

/-- Does some sampled statement of the module violate the grammar?  Since
every sampled line is verbatim from the module and the detector is sound,
`true` means the module fails to compile. -/
def moduleHasInvalidStatement : Bool :=
  moduleStatementLines.any statementGrammarViolation

/-- Outcome of importing a Python module. -/
inductive ImportOutcome where
  | loaded
  | raisesError
  deriving DecidableEq

/-- CPython compiles the whole module before executing any of it, so a
module with any syntactically invalid statement raises `SyntaxError` when
imported and binds nothing. -/
def importDiffuseByDischarge : ImportOutcome :=
  if moduleHasInvalidStatement then ImportOutcome.raisesError
  else ImportOutcome.loaded

/-- The `DischargeDiffuser` class object exists only if the module import
succeeded. -/
def dischargeDiffuserClassAvailable : Bool :=
  if importDiffuseByDischarge = ImportOutcome.loaded then true else false

/-- The class body of `DischargeDiffuser` as the ordered list of its method
definitions with a tag naming each body: `__init__` (line 121), the first
`run_one_step` (line 180, the solve body), the second `run_one_step`
(line 307, which delegates to `self.route_flow`), and the
`discharges_at_links` property (line 315). -/
def classMethodDefs : List (String × String) :=
  [("__init__", "init_body"),
   ("run_one_step", "solve_body"),
   ("run_one_step", "delegate_to_route_flow"),
   ("discharges_at_links", "property_accessor")]

/-- Python class-body semantics: the class namespace is a dict assigned
top to bottom, so the last definition of a name wins. -/
def lastBinding (l : List (String × String)) (name : String) :
    Option String :=
  l.foldl (fun acc p => if p.1 = name then some p.2 else acc) none

/-- The attributes `__init__` assigns on `self` (source lines 127-176), in
order.  The bare `self._` at line 178 is an attribute read, not an
assignment. -/
def initAttrTargets : List String :=
  ["_raster", "_grid", "_K", "_prevK", "_znew", "_Qn", "_Qs", "_Qw", "_Qe",
   "_app", "_apz", "_aww", "_awp", "_awz", "_aee", "_aep", "_aez", "_ass",
   "_asp", "_asz", "_ann", "_anp", "_anz"]

/-- Modelled from the spec: the `Component` base class is an external
collaborator; the spec's exposed interface (section 6) names
`run_one_step` and `discharges_at_links` only - no `route_flow` is
provided by the framework to this component. -/
def componentBaseProvidesRouteFlow : Bool := false

/-- Python attribute lookup for `self.route_flow` on a constructed
instance: instance attributes (set by `__init__`), then the class body,
then the base class. -/
def hasRouteFlowAttr : Bool :=
  initAttrTargets.contains "route_flow"
    || (classMethodDefs.map Prod.fst).contains "route_flow"
    || componentBaseProvidesRouteFlow

/-- Outcome of calling a method. -/
inductive CallOutcome where
  | completed
  | raisesAttributeError
  deriving DecidableEq

/-- Calling `run_one_step` on a constructed instance: look up the winning
definition; the delegating body (source line 312) evaluates
`self.route_flow`, which raises `AttributeError` when no such attribute
exists. -/
def callRunOneStep : CallOutcome :=
  match lastBinding classMethodDefs "run_one_step" with
  | some b =>
      if b = "delegate_to_route_flow" then
        (if hasRouteFlowAttr then CallOutcome.completed
         else CallOutcome.raisesAttributeError)
      else CallOutcome.completed
  | none => CallOutcome.raisesAttributeError

/-- One statement of the solve body, abstracted to the data the
name-binding claims need: the local name bound (for `=` to a plain local),
the plain names read, and stores through attributes or grid fields. -/
inductive FlatStmt where
  | assign (target : String) (reads : List String)
  | exprRead (reads : List String)
  | attrStore (attr : String) (reads : List String)
  | fieldStore (field : String) (reads : List String)
  deriving DecidableEq

/-- The plain names a statement reads. -/
def stmtReads : FlatStmt → List String
  | FlatStmt.assign _ rs => rs
  | FlatStmt.exprRead rs => rs
  | FlatStmt.attrStore _ rs => rs
  | FlatStmt.fieldStore _ rs => rs

/-- The local name a statement binds, if any. -/
def stmtTarget : FlatStmt → Option String
  | FlatStmt.assign t _ => some t
  | _ => none

/-- First name of the list not bound in the environment (Python raises
`NameError` at the first read of an unbound name). -/
def firstUnbound (env : List String) : List String → Option String
  | [] => none
  | r :: rs => if env.contains r then firstUnbound env rs else some r

/-- Sequential first-pass scan of a statement list: check every read
against the environment, then add the bound target.  Returns the name of
the first unbound read, or the extended environment. -/
def scanStmts (env : List String) : List FlatStmt → Except String (List String)
  | [] => Except.ok env
  | s :: rest =>
    match firstUnbound env (stmtReads s) with
    | some e => Except.error e
    | none =>
      match stmtTarget s with
      | some t => scanStmts (t :: env) rest
      | none => scanStmts env rest

/-- Does the scan halt with a `NameError` on exactly this name? -/
def scanHaltsWith (env : List String) (stmts : List FlatStmt)
    (name : String) : Bool :=
  match scanStmts env stmts with
  | Except.error e => e = name
  | Except.ok _ => false

/-- Does the scan complete without an unbound read? -/
def scanOk (env : List String) (stmts : List FlatStmt) : Bool :=
  match scanStmts env stmts with
  | Except.ok _ => true
  | Except.error _ => false

/-- The grid fields actually stored before the scan halts. -/
def fieldStoresBeforeHalt (env : List String) :
    List FlatStmt → List String
  | [] => []
  | s :: rest =>
    match firstUnbound env (stmtReads s) with
    | some _ => []
    | none =>
      (match s with
       | FlatStmt.fieldStore f _ => [f]
       | _ => []) ++
      (match stmtTarget s with
       | some t => fieldStoresBeforeHalt (t :: env) rest
       | none => fieldStoresBeforeHalt env rest)

/-- All local names bound by a statement list. -/
def assignTargets (stmts : List FlatStmt) : List String :=
  stmts.filterMap stmtTarget

/-- All grid fields stored by a statement list (on any path). -/
def fieldStores (stmts : List FlatStmt) : List String :=
  stmts.filterMap (fun s =>
    match s with
    | FlatStmt.fieldStore f _ => some f
    | _ => none)

/-- The module-level names in scope inside the solve body (the imports of
lines 11-15 and the class name). -/
def solveGlobals : List String :=
  ["np", "inspect", "RasterModelGrid", "Component", "FieldError",
   "INACTIVE_LINK", "CLOSED_BOUNDARY", "CORE_NODE",
   "use_file_name_or_kwds", "DischargeDiffuser"]

/-- The environment at entry of `run_one_step(self, **kwds)`: the
parameters plus the module globals. -/
def solveInitialEnv : List String := "self" :: "kwds" :: solveGlobals

/-- The statements of the first `run_one_step` body before the fixed-point
loop (source lines 183-240), in order, with the plain local names each
reads.  Lines 217-218 are syntactically invalid (claim C8) and are
modelled as reads of the named arrays; the `if` conditions at lines 225 and
240 read only attributes of `self`.  Line 193 (`slx = np.empty((n, n), ...)`)
reads the never-bound name `n`. -/
def preLoopStmts : List FlatStmt :=
  [FlatStmt.assign "grid" ["self"],
   FlatStmt.assign "ni" ["grid"],
   FlatStmt.assign "nj" ["grid"],
   FlatStmt.assign "z" ["grid"],
   FlatStmt.assign "Qsp" ["grid"],
   FlatStmt.assign "Qsource" ["grid"],
   FlatStmt.assign "mismatch" [],
   FlatStmt.assign "slx" ["np", "n"],
   FlatStmt.assign "sly" ["np", "n"],
   FlatStmt.assign "offset_slopes1" ["np", "n"],
   FlatStmt.assign "offset_slopes2" ["np", "n"],
   FlatStmt.assign "eta" ["z", "grid"],
   FlatStmt.assign "etan" ["self", "grid"],
   FlatStmt.assign "slice_e" ["ni", "nj"],
   FlatStmt.assign "slice_n" ["ni", "nj"],
   FlatStmt.assign "slice_w" ["ni", "nj"],
   FlatStmt.assign "slice_s" ["ni", "nj"],
   FlatStmt.assign "slice_ne" ["ni", "nj"],
   FlatStmt.assign "slice_sw" ["ni", "nj"],
   FlatStmt.assign "slice_nw" ["ni", "nj"],
   FlatStmt.assign "slice_se" ["ni", "nj"],
   FlatStmt.exprRead ["slx", "slice_e", "eta", "slice_w", "self"],
   FlatStmt.exprRead ["slx"],
   FlatStmt.exprRead ["offset_slopes1"],
   FlatStmt.exprRead ["sly"],
   FlatStmt.assign "g" ["grid", "z"],
   FlatStmt.exprRead ["self"],
   FlatStmt.assign "g" ["np", "g"],
   FlatStmt.assign "link_grad_at_node_w_dir" ["g", "grid"],
   FlatStmt.assign "outgoing_sum" ["np", "link_grad_at_node_w_dir", "self"],
   FlatStmt.assign "pos_incoming_link_grads" ["link_grad_at_node_w_dir"],
   FlatStmt.exprRead ["self"]]

/-- The body of the non-diagonal while loop (source lines 242-247), in
order: the K-update at index 2 reads the never-bound `Qwater_in`; the
mismatch computation at index 3 reads `prev_K`, which is first bound only
by the following statement. -/
def orthoLoopBody : List FlatStmt :=
  [FlatStmt.assign "K_link_ends" ["self", "grid"],
   FlatStmt.assign "incoming_K_sum"
     ["pos_incoming_link_grads", "K_link_ends", "self"],
   FlatStmt.attrStore "_K"
     ["incoming_K_sum", "Qwater_in", "outgoing_sum", "self"],
   FlatStmt.assign "mismatch" ["np", "self", "prev_K"],
   FlatStmt.assign "prev_K" ["self"]]

/-- The statements after the non-diagonal loop (source lines 249-251). -/
def orthoPostStmts : List FlatStmt :=
  [FlatStmt.assign "upwind_K" ["grid", "z", "self"],
   FlatStmt.attrStore "_discharges_at_link" ["upwind_K", "g", "self"],
   FlatStmt.attrStore "_discharges_at_link" ["grid", "INACTIVE_LINK", "self"]]

/-- The diagonal-branch setup statements (source lines 254-264). -/
def diagSetupStmts : List FlatStmt :=
  [FlatStmt.assign "gwd" ["np", "grid"],
   FlatStmt.assign "gd" ["gwd", "grid"],
   FlatStmt.exprRead ["gd", "z", "grid"],
   FlatStmt.exprRead ["gd", "grid"],
   FlatStmt.exprRead ["self"],
   FlatStmt.exprRead ["np", "gd"],
   FlatStmt.assign "diag_grad_at_node_w_dir" ["gwd", "grid"],
   FlatStmt.exprRead ["outgoing_sum", "np", "diag_grad_at_node_w_dir"],
   FlatStmt.assign "pos_incoming_diag_grads" ["diag_grad_at_node_w_dir"]]

/-- The body of the diagonal while loop (source lines 266-274). -/
def diagLoopBody : List FlatStmt :=
  [FlatStmt.assign "K_link_ends" ["self", "grid"],
   FlatStmt.assign "K_diag_ends" ["self", "grid"],
   FlatStmt.assign "incoming_K_sum"
     ["pos_incoming_link_grads", "K_link_ends",
      "pos_incoming_diag_grads", "K_diag_ends", "self"],
   FlatStmt.attrStore "_K"
     ["incoming_K_sum", "Qwater_in", "outgoing_sum", "self"],
   FlatStmt.assign "mismatch" ["np", "self", "prev_K"],
   FlatStmt.assign "prev_K" ["self"]]

/-- The statements after the diagonal loop (source lines 278-286). -/
def diagPostStmts : List FlatStmt :=
  [FlatStmt.assign "upwind_K" ["grid", "z", "self"],
   FlatStmt.assign "upwind_diag_K" ["np", "z", "grid", "self"],
   FlatStmt.attrStore "_discharges_at_link" ["upwind_K", "g", "grid", "self"],
   FlatStmt.attrStore "_discharges_at_link"
     ["upwind_diag_K", "gd", "grid", "self"],
   FlatStmt.attrStore "_discharges_at_link" ["grid", "self"]]

/-- The trailing statements of the solve body (source lines 288-305): the
per-node product stored into the internal `_Qw` buffer, and the Chezy /
Manning depth branches, the only statements that store a grid field. -/
def tailStmts : List FlatStmt :=
  [FlatStmt.attrStore "_Qw" ["np", "self", "outgoing_sum"],
   FlatStmt.exprRead ["self"],
   FlatStmt.fieldStore "surface_water__depth" ["grid", "self"],
   FlatStmt.exprRead ["self"],
   FlatStmt.fieldStore "surface_water__depth" ["grid", "self"]]

/-- Every statement of the solve body, both branches, in source order. -/
def allSolveStmts : List FlatStmt :=
  preLoopStmts ++ orthoLoopBody ++ orthoPostStmts ++ diagSetupStmts
    ++ diagLoopBody ++ diagPostStmts ++ tailStmts

/-- Does the first pass of the solve body ever reach the fixed-point loop?
The loop bodies come after `preLoopStmts`, so it is reached only if the
scan of `preLoopStmts` completes. -/
def solveReachesLoop : Bool := scanOk solveInitialEnv preLoopStmts

/-! Concrete instances used by witnesses and counterexamples. -/

/-- A concrete well-formed grid: a three-node downhill chain
`node 0 (z=2) -- link 0 --> node 1 (z=1) -- link 1 --> node 2 (z=0)`,
with unit link lengths, both links active, and an open outlet. -/
def chainG : Grid where
  numNodes := 3
  numLinks := 2
  fromnode := ![0, 1]
  tonode := ![1, 2]
  length_of_link := ![1, 1]
  link_is_active := ![true, true]
  inc := ![[(0, 1, 1)], [(0, -1, 0), (1, 1, 2)], [(1, -1, 1)]]
  status_at_node := ![NodeStatus.core, NodeStatus.core, NodeStatus.fixedValue]

/-- Elevations of the chain grid. -/
def chainZ : Fin 3 → ℚ := ![2, 1, 0]

/-- Unit water influx at every chain node. -/
def chainQw : Fin 3 → ℚ := ![1, 1, 1]

/-- Zero seed potential (the `__init__` allocation, source line 153). -/
def chainK0 : Fin 3 → ℚ := fun _ => 0

/-- A concrete one-node grid whose only node is a closed boundary; it has
no links, so the node's incidence list is empty. -/
def oneNodeG : Grid where
  numNodes := 1
  numLinks := 0
  fromnode := fun l => l.elim0
  tonode := fun l => l.elim0
  length_of_link := fun l => l.elim0
  link_is_active := fun l => l.elim0
  inc := fun _ => []
  status_at_node := fun _ => NodeStatus.closed

/-- Flat elevation on the one-node grid. -/
def oneZ : Fin 1 → ℚ := fun _ => 0

/-- Zero influx on the one-node grid. -/
def oneQw : Fin 1 → ℚ := fun _ => 0

/-- Zero potential on the one-node grid. -/
def oneK0 : Fin 1 → ℚ := fun _ => 0

/-- The all-one potential on the one-node grid (a fixed point of the
sweep there). -/
def oneKfix : Fin 1 → ℚ := fun _ => 1

/-- A concrete 3x3 raster grid description whose boundary is fully closed:
no open nodes at all. -/
def fullyClosedInfo : GridInfo where
  is_raster := true
  number_of_node_rows := 3
  number_of_node_columns := 3
  open_node_count := 0

/-! Helper lemmas. -/

/-- Zipping a mapped list with the list itself is a single map. -/
theorem zipWith_map_left_self {α β γ : Type} (f : α → β) (g : β → α → γ)
    (l : List α) :
    List.zipWith g (l.map f) l = l.map (fun a => g (f a) a) := by
  induction l with
  | nil => rfl
  | cons a l ih => simp [ih]

/-- `incoming_K_sum` as a single map over the incidence list. -/
theorem incoming_K_sum_eq_map (G : Grid) (z K : Fin G.numNodes → ℚ)
    (i : Fin G.numNodes) :
    incoming_K_sum G z K i =
      ((G.inc i).map (fun t =>
        max (-(calc_grad_at_link G z t.1 * (t.2.1 : ℚ))) 0 * K t.2.2)).sum
      + min_slope_thresh := by
  unfold incoming_K_sum pos_incoming_link_grads link_grad_at_node_w_dir
  rw [List.map_map, zipWith_map_left_self]
  rfl

/-- `outgoing_sum` as a single map over the incidence list. -/
theorem outgoing_sum_eq_map (G : Grid) (z : Fin G.numNodes → ℚ)
    (i : Fin G.numNodes) :
    outgoing_sum G z i =
      ((G.inc i).map (fun t =>
        max (calc_grad_at_link G z t.1 * (t.2.1 : ℚ)) 0)).sum
      + min_slope_thresh := by
  unfold outgoing_sum link_grad_at_node_w_dir
  rw [List.map_map]
  rfl

/-- The one-node grid has an empty incidence list at every node. -/
theorem oneNodeG_inc_eq (i : Fin oneNodeG.numNodes) : oneNodeG.inc i = [] :=
  rfl

/-- The floor constant is positive. -/
theorem min_slope_thresh_pos : 0 < min_slope_thresh := by
  norm_num [min_slope_thresh]

/-- The tolerance is positive. -/
theorem tol_pos : 0 < tol := by
  norm_num [tol]

/-- The outgoing-sum-with-floor is positive at every node: the clipped
summands are nonnegative and the floor is positive. -/
theorem outgoing_sum_pos (G : Grid) (z : Fin G.numNodes → ℚ)
    (i : Fin G.numNodes) : 0 < outgoing_sum G z i := by
  rw [outgoing_sum_eq_map]
  refine add_pos_of_nonneg_of_pos (List.sum_nonneg ?_) min_slope_thresh_pos
  intro x hx
  rcases List.mem_map.mp hx with ⟨t, _, rfl⟩
  exact le_max_right _ _

/-- On a well-formed grid, each numerator summand of the sweep at node `i`
equals the spec's `max(0, g_ij) * K[j]` over active-direction neighbors. -/
theorem incoming_entry_eq (G : Grid) (z K : Fin G.numNodes → ℚ)
    (hwf : WF G) (i : Fin G.numNodes) :
    ∀ t ∈ G.inc i,
      max (-(calc_grad_at_link G z t.1 * (t.2.1 : ℚ))) 0 * K t.2.2
        = (if t.2.1 = 0 then 0
           else max 0 ((z t.2.2 - z i) / G.length_of_link t.1) * K t.2.2) := by
  intro t ht
  rcases hwf.2.1 i t ht with h0 | ⟨h1, hfrom, hto, _⟩ | ⟨h1, hto, hfrom, _⟩
  · simp [h0]
  · rw [if_neg (by simp [h1])]
    simp only [h1, Int.cast_one, mul_one, calc_grad_at_link]
    rw [hfrom, hto, ← neg_div, neg_sub, max_comm]
  · rw [if_neg (by simp [h1])]
    simp only [h1, Int.cast_neg, Int.cast_one, mul_neg_one, neg_neg,
      calc_grad_at_link]
    rw [hto, hfrom, max_comm]

/-- On a well-formed grid, each denominator summand of the sweep at node
`i` equals the spec's `max(0, g_ji)` over active-direction neighbors. -/
theorem outgoing_entry_eq (G : Grid) (z : Fin G.numNodes → ℚ)
    (hwf : WF G) (i : Fin G.numNodes) :
    ∀ t ∈ G.inc i,
      max (calc_grad_at_link G z t.1 * (t.2.1 : ℚ)) 0
        = (if t.2.1 = 0 then 0
           else max 0 ((z i - z t.2.2) / G.length_of_link t.1)) := by
  intro t ht
  rcases hwf.2.1 i t ht with h0 | ⟨h1, hfrom, hto, _⟩ | ⟨h1, hto, hfrom, _⟩
  · simp [h0]
  · rw [if_neg (by simp [h1])]
    simp only [h1, Int.cast_one, mul_one, calc_grad_at_link]
    rw [hfrom, hto, max_comm]
  · rw [if_neg (by simp [h1])]
    simp only [h1, Int.cast_neg, Int.cast_one, mul_neg_one, calc_grad_at_link]
    rw [hto, hfrom, ← neg_div, neg_sub, max_comm]

/-- Every iterate of the loop is nonnegative everywhere when the influx and
the seed are: the weights are zero-clipped, the floor is positive, and the
denominator is positive. -/
theorem kIter_nonneg_aux (G : Grid) (z Qw K0 : Fin G.numNodes → ℚ)
    (hq : ∀ i, 0 ≤ Qw i) (hk : ∀ i, 0 ≤ K0 i) :
    ∀ t i, 0 ≤ kIter G z Qw K0 t i := by
  intro t
  induction t with
  | zero => exact hk
  | succ t ih =>
    intro i
    show 0 ≤ sweep G z Qw (kIter G z Qw K0 t) i
    unfold sweep
    refine div_nonneg (add_nonneg ?_ (hq i)) (le_of_lt (outgoing_sum_pos G z i))
    rw [incoming_K_sum_eq_map]
    refine add_nonneg (List.sum_nonneg ?_) (le_of_lt min_slope_thresh_pos)
    intro x hx
    rcases List.mem_map.mp hx with ⟨t', _, rfl⟩
    exact mul_nonneg (le_max_right _ _) (ih t'.2.2)

/-- The sweep at node `i` depends only on the potential at strictly higher
nodes: an incidence entry has positive incoming weight only when its
neighbor is higher, and zero weight kills the factor `K` at the neighbor. -/
theorem sweep_congr_higher (G : Grid) (z Qw : Fin G.numNodes → ℚ)
    (hwf : WF G) (i : Fin G.numNodes) (K Kb : Fin G.numNodes → ℚ)
    (h : ∀ j, z i < z j → K j = Kb j) :
    sweep G z Qw K i = sweep G z Qw Kb i := by
  unfold sweep
  suffices hik : incoming_K_sum G z K i = incoming_K_sum G z Kb i by
    rw [hik]
  rw [incoming_K_sum_eq_map, incoming_K_sum_eq_map]
  congr 1
  apply congrArg List.sum
  apply List.map_congr_left
  intro t ht
  rcases hwf.2.1 i t ht with h0 | ⟨h1, hfrom, hto, _⟩ | ⟨h1, hto, hfrom, _⟩
  · simp [h0]
  · simp only [h1, Int.cast_one, mul_one, calc_grad_at_link]
    rw [hfrom, hto]
    by_cases hz : z i < z t.2.2
    · rw [h _ hz]
    · have hnum : 0 ≤ (z i - z t.2.2) / G.length_of_link t.1 :=
        div_nonneg (sub_nonneg.mpr (not_lt.mp hz)) (le_of_lt (hwf.1 t.1))
      rw [max_eq_right (neg_nonpos.mpr hnum)]
      simp
  · simp only [h1, Int.cast_neg, Int.cast_one, mul_neg_one, neg_neg,
      calc_grad_at_link]
    rw [hto, hfrom]
    by_cases hz : z i < z t.2.2
    · rw [h _ hz]
    · have hnum : (z t.2.2 - z i) / G.length_of_link t.1 ≤ 0 :=
        div_nonpos_iff.mpr (Or.inr
          ⟨sub_nonpos.mpr (not_lt.mp hz), le_of_lt (hwf.1 t.1)⟩)
      rw [max_eq_right hnum]
      simp

/-- A strictly higher node has strictly smaller rank. -/
theorem rank_lt_of_lt (G : Grid) (z : Fin G.numNodes → ℚ)
    {i j : Fin G.numNodes} (hij : z i < z j) : rank G z j < rank G z i := by
  unfold rank
  have hsub : (Finset.univ.image z).filter (fun e => z j < e)
      ⊆ (Finset.univ.image z).filter (fun e => z i < e) := by
    intro e he
    rw [Finset.mem_filter] at he ⊢
    exact ⟨he.1, lt_trans hij he.2⟩
  refine Finset.card_lt_card ((Finset.ssubset_iff_of_subset hsub).mpr
    ⟨z j, ?_, ?_⟩)
  · rw [Finset.mem_filter]
    exact ⟨Finset.mem_image_of_mem z (Finset.mem_univ j), hij⟩
  · rw [Finset.mem_filter]
    exact fun hc => lt_irrefl _ hc.2

/-- The rank of every node is below the node count. -/
theorem rank_lt_card (G : Grid) (z : Fin G.numNodes → ℚ)
    (i : Fin G.numNodes) : rank G z i < G.numNodes := by
  unfold rank
  have h1 : (Finset.univ.image z).filter (fun e => z i < e)
      ⊆ (Finset.univ.image z).erase (z i) := by
    intro e he
    rw [Finset.mem_filter] at he
    rw [Finset.mem_erase]
    exact ⟨ne_of_gt he.2, he.1⟩
  calc ((Finset.univ.image z).filter (fun e => z i < e)).card
      ≤ ((Finset.univ.image z).erase (z i)).card := Finset.card_le_card h1
    _ < (Finset.univ.image z).card :=
        Finset.card_erase_lt_of_mem
          (Finset.mem_image_of_mem z (Finset.mem_univ i))
    _ ≤ (Finset.univ : Finset (Fin G.numNodes)).card := Finset.card_image_le
    _ = G.numNodes := by simp

/-- Stabilization: once at least `rank i` sweeps have happened, the value
at `i` no longer changes.  Strong induction on the rank, using that the
sweep at `i` reads only strictly higher nodes, whose ranks are smaller. -/
theorem kIter_stable (G : Grid) (z Qw K0 : Fin G.numNodes → ℚ)
    (hwf : WF G) :
    ∀ r : ℕ, ∀ i : Fin G.numNodes, rank G z i = r →
      ∀ m : ℕ, r ≤ m →
        kIter G z Qw K0 (m + 1) i = kIter G z Qw K0 (r + 1) i := by
  intro r
  induction r using Nat.strong_induction_on with
  | _ r IH =>
    intro i hri m hrm
    induction m, hrm using Nat.le_induction with
    | base => rfl
    | succ m hm ihm =>
      have hcong : sweep G z Qw (kIter G z Qw K0 (m + 1)) i
          = sweep G z Qw (kIter G z Qw K0 m) i := by
        apply sweep_congr_higher G z Qw hwf i
        intro j hij
        have hrj : rank G z j < r := by
          rw [← hri]
          exact rank_lt_of_lt G z hij
        have h1 : kIter G z Qw K0 (m + 1) j
            = kIter G z Qw K0 (rank G z j + 1) j :=
          IH (rank G z j) hrj j rfl m (by omega)
        obtain ⟨p, rfl⟩ : ∃ p, m = p + 1 := ⟨m - 1, by omega⟩
        have h2 : kIter G z Qw K0 (p + 1) j
            = kIter G z Qw K0 (rank G z j + 1) j :=
          IH (rank G z j) hrj j rfl p (by omega)
        rw [h1, h2]
      calc kIter G z Qw K0 (m + 1 + 1) i
          = sweep G z Qw (kIter G z Qw K0 (m + 1)) i := rfl
        _ = sweep G z Qw (kIter G z Qw K0 m) i := hcong
        _ = kIter G z Qw K0 (m + 1) i := rfl
        _ = kIter G z Qw K0 (r + 1) i := ihm

/-- After `numNodes` sweeps the iterate is an exact fixed point. -/
theorem kIter_fixed (G : Grid) (z Qw K0 : Fin G.numNodes → ℚ)
    (hwf : WF G) (i : Fin G.numNodes) :
    kIter G z Qw K0 (G.numNodes + 1) i = kIter G z Qw K0 G.numNodes i := by
  have hr : rank G z i < G.numNodes := rank_lt_card G z i
  obtain ⟨p, hp⟩ : ∃ p, G.numNodes = p + 1 := ⟨G.numNodes - 1, by omega⟩
  have h1 := kIter_stable G z Qw K0 hwf (rank G z i) i rfl G.numNodes
    (by omega)
  have h2 := kIter_stable G z Qw K0 hwf (rank G z i) i rfl p (by omega)
  rw [h1, hp, h2]

/-- On every well-formed input the while loop terminates: by iteration
`numNodes + 1` the mismatch is exactly zero. -/
theorem loop_terminates_all (G : Grid) (z Qw K0 : Fin G.numNodes → ℚ)
    (hwf : WF G) : LoopTerminates G z Qw K0 := by
  refine ⟨G.numNodes + 1, by omega, ?_⟩
  have hm : mismatch G z Qw K0 (G.numNodes + 1) = 0 := by
    unfold mismatch
    apply Finset.sum_eq_zero
    intro i _
    rw [Nat.add_sub_cancel, kIter_fixed G z Qw K0 hwf i, sub_self]
    simp
  rw [hm]
  exact le_of_lt tol_pos

/-! Claim C1: the sweep recurrence. -/

/-- C1 (confirmed).  For every non-closed node `i` of a well-formed grid,
one sweep of the solver (source lines 242-247) recomputes the potential as
`K[i] = (Σ_j max(0, g_ij)·K[j] + floor + Qwater_in[i]) /
(Σ_j max(0, g_ji) + floor)`, where `g_ij = (z[j] - z[i])/length` is the
gradient from neighbor `j` into `i` (positive when `j` is higher), the sum
ranges over the active-direction neighbors, the floor is
`_min_slope_thresh`, and the denominator is the precomputed
outgoing-sum-with-floor.  All nodes are recomputed simultaneously from the
previous iterate: `sweep` is a pure function of the whole previous field. -/
theorem c1_sweep_formula (G : Grid) (z Qw K : Fin G.numNodes → ℚ)
    (hwf : WF G) (i : Fin G.numNodes)
    (hnc : G.status_at_node i ≠ NodeStatus.closed) :
    sweep G z Qw K i = claim_numerator G z Qw K i / claim_denominator G z i := by
  unfold sweep claim_numerator claim_denominator
  rw [incoming_K_sum_eq_map,
    List.map_congr_left (incoming_entry_eq G z K hwf i),
    outgoing_sum_eq_map,
    List.map_congr_left (outgoing_entry_eq G z hwf i)]

/-- Witness for C1 at the concrete chain grid and its middle node. -/
theorem c1_sweep_formula_witness :
    WF chainG ∧ chainG.status_at_node (1 : Fin 3) ≠ NodeStatus.closed ∧
      sweep chainG chainZ chainQw chainK0 (1 : Fin 3)
        = claim_numerator chainG chainZ chainQw chainK0 (1 : Fin 3)
          / claim_denominator chainG chainZ (1 : Fin 3) :=
  ⟨by decide, by decide,
    c1_sweep_formula chainG chainZ chainQw chainK0 (by decide) (1 : Fin 3)
      (by decide)⟩

/-! Claim C3: the upwind selection law for link discharges. -/

/-- C3 (confirmed).  After the loop, the per-link discharge assignment
(source lines 249-251 and 278-286) obeys the upwind law: an inactive link
carries exactly zero discharge; an active link whose endpoints differ in
elevation carries the K of the topographically higher endpoint times the
link's signed gradient; and in diagonal-routing mode the same rule holds
for diagonal links with their own to/from elevations and lengths. -/
theorem c3_upwind_discharge (G : Grid) (D : DiagTopo G)
    (z K : Fin G.numNodes → ℚ) :
    (∀ l, G.link_is_active l = false → discharges_at_link G z K l = 0) ∧
    (∀ l, G.link_is_active l = true → z (G.tonode l) < z (G.fromnode l) →
      discharges_at_link G z K l = K (G.fromnode l) * calc_grad_at_link G z l) ∧
    (∀ l, G.link_is_active l = true → z (G.fromnode l) < z (G.tonode l) →
      discharges_at_link G z K l = K (G.tonode l) * calc_grad_at_link G z l) ∧
    (∀ dl, D.diag_d8_active dl = false → discharges_at_diag_link G D z K dl = 0) ∧
    (∀ dl, D.diag_d8_active dl = true →
      z (D.diag_fromnode dl) < z (D.diag_tonode dl) →
      discharges_at_diag_link G D z K dl
        = K (D.diag_tonode dl) * diag_grad G D z dl) ∧
    (∀ dl, D.diag_d8_active dl = true →
      z (D.diag_tonode dl) < z (D.diag_fromnode dl) →
      discharges_at_diag_link G D z K dl
        = K (D.diag_fromnode dl) * diag_grad G D z dl) := by
  refine ⟨fun l hl => ?_, fun l hl hz => ?_, fun l hl hz => ?_,
    fun dl hdl => ?_, fun dl hdl hz => ?_, fun dl hdl hz => ?_⟩
  · simp [discharges_at_link, hl]
  · simp [discharges_at_link, hl, upwind_K, if_pos hz]
  · simp [discharges_at_link, hl, upwind_K, if_neg (not_lt.mpr (le_of_lt hz))]
  · simp [discharges_at_diag_link, hdl]
  · simp [discharges_at_diag_link, hdl, upwind_diag_K, if_pos hz]
  · simp [discharges_at_diag_link, hdl, upwind_diag_K,
      if_neg (not_lt.mpr (le_of_lt hz))]

/-! Claim C4: per-node discharge and the output fields (corrected). -/

/-- Counterexample to C4 as stated: `run_one_step` stores no
`flow__potential` and no `surface_water__discharge` grid field anywhere in
its body - the only grid-field stores are the two `surface_water__depth`
branches - so the converged potential, the per-link discharges, and the
per-node discharge are not written as named output fields. -/
theorem c4_counterexample :
    (fieldStores allSolveStmts).contains "flow__potential" = false ∧
    (fieldStores allSolveStmts).contains "surface_water__discharge" = false ∧
    fieldStores allSolveStmts = ["surface_water__depth", "surface_water__depth"] := by
  decide

/-- C4 (corrected).  At a converged potential (a fixed point of the sweep),
the per-node discharge computed at source line 288 equals the node's K
times its outgoing-sum-with-floor, and that product equals the node-level
mass balance `incoming_K_sum + Qwater_in` that the iteration enforced; but
that product is stored into the internal `_Qw` buffer, and `run_one_step`
writes neither `flow__potential` nor `surface_water__discharge` as grid
fields. -/
theorem c4_node_discharge (G : Grid) (z Qw K : Fin G.numNodes → ℚ)
    (hfix : ∀ i, sweep G z Qw K i = K i) :
    (∀ i, discharge_at_node G z K i = incoming_K_sum G z K i + Qw i) ∧
    tailStmts.get? 0 = some (FlatStmt.attrStore "_Qw" ["np", "self", "outgoing_sum"]) ∧
    (fieldStores allSolveStmts).contains "flow__potential" = false ∧
    (fieldStores allSolveStmts).contains "surface_water__discharge" = false := by
  refine ⟨fun i => ?_, by decide, by decide, by decide⟩
  unfold discharge_at_node
  rw [← hfix i]
  unfold sweep
  exact div_mul_cancel₀ _ (ne_of_gt (outgoing_sum_pos G z i))

/-- Witness for C4 at the one-node grid, whose all-one potential is a
fixed point of the sweep. -/
theorem c4_node_discharge_witness :
    (∀ i, sweep oneNodeG oneZ oneQw oneKfix i = oneKfix i) ∧
    ((∀ i, discharge_at_node oneNodeG oneZ oneKfix i
        = incoming_K_sum oneNodeG oneZ oneKfix i + oneQw i) ∧
      tailStmts.get? 0 = some (FlatStmt.attrStore "_Qw" ["np", "self", "outgoing_sum"]) ∧
      (fieldStores allSolveStmts).contains "flow__potential" = false ∧
      (fieldStores allSolveStmts).contains "surface_water__discharge" = false) := by
  have hfix : ∀ i, sweep oneNodeG oneZ oneQw oneKfix i = oneKfix i := by
    intro i
    norm_num [sweep, incoming_K_sum, outgoing_sum, pos_incoming_link_grads,
      link_grad_at_node_w_dir, oneNodeG_inc_eq, oneZ, oneQw, oneKfix,
      min_slope_thresh]
  exact ⟨hfix, c4_node_discharge oneNodeG oneZ oneQw oneKfix hfix⟩

/-! Claim C5: closed nodes and the update (corrected). -/

/-- Counterexample to C5 as stated: on the one-node grid whose only node is
closed, one sweep changes the stored potential from 0 to 1, so the K value
at a closed node is not left unchanged. -/
theorem c5_counterexample :
    sweep oneNodeG oneZ oneQw oneK0 (0 : Fin 1) = 1 ∧
    oneK0 (0 : Fin 1) = 0 ∧
    oneNodeG.status_at_node (0 : Fin 1) = NodeStatus.closed ∧
    (1 : ℚ) ≠ 0 := by
  refine ⟨?_, rfl, rfl, by norm_num⟩
  norm_num [sweep, incoming_K_sum, outgoing_sum, pos_incoming_link_grads,
    link_grad_at_node_w_dir, oneNodeG_inc_eq, oneZ, oneQw, oneK0,
    min_slope_thresh]

/-- C5 (corrected).  The sweep recomputes K at every node, closed nodes
included (`self._K[:]`, source lines 245 and 272, assigns the whole
array).  Since a well-formed grid gives a closed node only zero active
directions, its recomputed K is `(floor + Qwater_in)/floor`, independent of
the previous iterate, rather than being left unchanged. -/
theorem c5_closed_node_update (G : Grid) (z Qw K : Fin G.numNodes → ℚ)
    (hwf : WF G) (i : Fin G.numNodes)
    (hc : G.status_at_node i = NodeStatus.closed) :
    sweep G z Qw K i = (min_slope_thresh + Qw i) / min_slope_thresh := by
  have hz : ∀ t ∈ G.inc i, t.2.1 = 0 := hwf.2.2 i hc
  unfold sweep
  have hnum : incoming_K_sum G z K i = min_slope_thresh := by
    rw [incoming_K_sum_eq_map]
    rw [List.sum_eq_zero, zero_add]
    intro x hx
    rcases List.mem_map.mp hx with ⟨t, ht, rfl⟩
    simp [hz t ht]
  have hden : outgoing_sum G z i = min_slope_thresh := by
    rw [outgoing_sum_eq_map]
    rw [List.sum_eq_zero, zero_add]
    intro x hx
    rcases List.mem_map.mp hx with ⟨t, ht, rfl⟩
    simp [hz t ht]
  rw [hnum, hden]

/-- Witness for the corrected C5 at the one-node closed grid. -/
theorem c5_closed_node_update_witness :
    WF oneNodeG ∧ oneNodeG.status_at_node (0 : Fin 1) = NodeStatus.closed ∧
      sweep oneNodeG oneZ oneQw oneK0 (0 : Fin 1)
        = (min_slope_thresh + oneQw (0 : Fin 1)) / min_slope_thresh :=
  ⟨by decide, rfl,
    c5_closed_node_update oneNodeG oneZ oneQw oneK0 (by decide) (0 : Fin 1) rfl⟩

/-! Claim C6: the constructor's configuration validation (corrected). -/

/-- Counterexample to C6 as stated: a 3x3 raster grid with a fully closed
boundary (no open nodes) passes the constructor's configuration validation,
which never consults node statuses - so such grids are not rejected as
configuration errors. -/
theorem c6_counterexample :
    init_validation_accepts fullyClosedInfo = true ∧
    fullyClosedInfo.open_node_count = 0 := by
  decide

/-- C6 (corrected).  The configuration validation of `__init__` (source
lines 124-131) accepts a grid exactly when it is a raster with at least 3
node rows and at least 3 node columns; raster-ness and the node shape are
all it consults, so a fully closed boundary is not rejected. -/
theorem c6_validation_characterization (g : GridInfo) :
    init_validation_accepts g = true ↔
      (g.is_raster = true ∧ 3 ≤ g.number_of_node_rows ∧
        3 ≤ g.number_of_node_columns) := by
  unfold init_validation_accepts
  cases hr : g.is_raster <;> simp [hr]

/-! Claim C7: nonnegativity of all iterates. -/

/-- C7 (confirmed).  For every well-formed input with at least one
non-closed node, nonnegative influx everywhere, and a nonnegative seed
(the seed is zero at construction, source line 153), every iterate of the
potential field is nonnegative at every non-closed node.  (The proof in
fact gives nonnegativity at every node.) -/
theorem c7_iterates_nonneg (G : Grid) (z Qw K0 : Fin G.numNodes → ℚ)
    (hwf : WF G) (hopen : ∃ i, G.status_at_node i ≠ NodeStatus.closed)
    (hq : ∀ i, 0 ≤ Qw i) (hk : ∀ i, 0 ≤ K0 i) :
    ∀ t i, G.status_at_node i ≠ NodeStatus.closed →
      0 ≤ kIter G z Qw K0 t i :=
  fun t i _ => kIter_nonneg_aux G z Qw K0 hq hk t i

/-- Witness for C7 at the concrete chain grid. -/
theorem c7_iterates_nonneg_witness :
    WF chainG ∧ (∃ i, chainG.status_at_node i ≠ NodeStatus.closed) ∧
      (∀ i, 0 ≤ chainQw i) ∧ (∀ i, 0 ≤ chainK0 i) ∧
      (∀ t i, chainG.status_at_node i ≠ NodeStatus.closed →
        0 ≤ kIter chainG chainZ chainQw chainK0 t i) :=
  ⟨by decide, by decide, by decide, by decide,
    c7_iterates_nonneg chainG chainZ chainQw chainK0 (by decide) (by decide)
      (by decide) (by decide)⟩

/-! Claim C8: the module is not valid Python. -/

/-- C8 (confirmed).  Source line 131 is an `assert` statement with a bare
`=` in its body (invalid), line 178 is a bare attribute expression, and
lines 217-218 contain empty subscripts (invalid); hence the module fails to
compile, importing it raises `SyntaxError` in every execution environment,
and the `DischargeDiffuser` class is never created. -/
theorem c8_module_not_valid_python :
    statementGrammarViolation line_131 = true ∧
    bareAttributeExprStmt line_178 = true ∧
    statementGrammarViolation line_217 = true ∧
    statementGrammarViolation line_218 = true ∧
    importDiffuseByDischarge = ImportOutcome.raisesError ∧
    dischargeDiffuserClassAvailable = false := by
  decide

/-! Claim C9: the surviving run_one_step delegates to a missing method. -/

/-- C9 (confirmed).  The class body defines `run_one_step` twice and the
second definition wins in the class namespace; it delegates to
`self.route_flow`, which neither `__init__`, nor the class body, nor
(per the spec's interface) the `Component` base class provides - so every
call raises `AttributeError` instead of solving or writing output. -/
theorem c9_run_one_step_attribute_error :
    lastBinding classMethodDefs "run_one_step" = some "delegate_to_route_flow" ∧
    hasRouteFlowAttr = false ∧
    callRunOneStep = CallOutcome.raisesAttributeError := by
  decide

/-! Claim C10: the solve path dies on unbound names. -/

/-- C10 (confirmed).  Scanning the first `run_one_step` body: the first
seven statements bind their locals, the eighth - the slope-array
allocation `slx = np.empty((n, n), ...)`, line 193 - reads the never-bound
name `n`, so execution halts with a `NameError` before the fixed-point
loop is ever reached (zero iterations complete) and before any grid field
is stored.  Moreover `Qwater_in` is read by the K-update (loop index 2)
but bound nowhere in the body, `prev_K` is read by the mismatch statement
(loop index 3) although no earlier statement binds it (it is bound only at
loop index 4), and `__init__` never assigns `self._discharges_at_link`. -/
theorem c10_solve_unbound_names :
    scanHaltsWith solveInitialEnv preLoopStmts "n" = true ∧
    scanOk solveInitialEnv (preLoopStmts.take 7) = true ∧
    preLoopStmts.get? 7 = some (FlatStmt.assign "slx" ["np", "n"]) ∧
    solveReachesLoop = false ∧
    (assignTargets allSolveStmts).contains "n" = false ∧
    (assignTargets allSolveStmts).contains "Qwater_in" = false ∧
    orthoLoopBody.get? 2 = some (FlatStmt.attrStore "_K"
      ["incoming_K_sum", "Qwater_in", "outgoing_sum", "self"]) ∧
    orthoLoopBody.get? 3 = some (FlatStmt.assign "mismatch"
      ["np", "self", "prev_K"]) ∧
    orthoLoopBody.get? 4 = some (FlatStmt.assign "prev_K" ["self"]) ∧
    (assignTargets (preLoopStmts ++ orthoLoopBody.take 4)).contains "prev_K"
      = false ∧
    initAttrTargets.contains "_discharges_at_link" = false ∧
    fieldStoresBeforeHalt solveInitialEnv preLoopStmts = [] := by
  decide

/-! Claim C2: the stopping criterion and termination (corrected). -/

/-- Counterexample to C2's non-termination conjunct: there is no input at
all - well-formed grid, elevations, influx, seed - on which the loop runs
forever; each node's update reads only strictly higher nodes, so the
iterate is exactly stationary after at most `numNodes` sweeps and the
mismatch then falls to zero. -/
theorem c2_counterexample :
    (∃ G : Grid, ∃ z Qw K0 : Fin G.numNodes → ℚ,
      WF G ∧ ∀ t : ℕ, 1 ≤ t → tol < mismatch G z Qw K0 t) = False := by
  apply eq_false
  rintro ⟨G, z, Qw, K0, hwf, hall⟩
  obtain ⟨t, ht1, htol⟩ := loop_terminates_all G z Qw K0 hwf
  exact absurd (hall t ht1) (not_lt.mpr htol)

/-- C2 (corrected).  The loop (source lines 240-247) exits exactly at the
first iteration `t ≥ 1` whose sum of squared successive differences is at
or below the fixed tolerance `1e-6`; this comparison is the single
stopping criterion and there is no iteration cap.  However, such an exit
iteration exists for every well-formed input, so the loop always
terminates (contrary to the claim's final conjunct). -/
theorem c2_loop_exit (G : Grid) (z Qw K0 : Fin G.numNodes → ℚ)
    (hwf : WF G) :
    ∃ t : ℕ, (1 ≤ t ∧ mismatch G z Qw K0 t ≤ tol) ∧
      ∀ s : ℕ, 1 ≤ s → s < t → tol < mismatch G z Qw K0 s := by
  have hex : ∃ t, 1 ≤ t ∧ mismatch G z Qw K0 t ≤ tol :=
    loop_terminates_all G z Qw K0 hwf
  refine ⟨Nat.find hex, Nat.find_spec hex, ?_⟩
  intro s hs1 hst
  have hmin := Nat.find_min hex hst
  exact not_le.mp (not_and.mp hmin hs1)

/-- Witness for the corrected C2 at the concrete chain grid. -/
theorem c2_loop_exit_witness :
    WF chainG ∧
      ∃ t : ℕ, (1 ≤ t ∧ mismatch chainG chainZ chainQw chainK0 t ≤ tol) ∧
        ∀ s : ℕ, 1 ≤ s → s < t →
          tol < mismatch chainG chainZ chainQw chainK0 s :=
  ⟨by decide, c2_loop_exit chainG chainZ chainQw chainK0 (by decide)⟩

end DiffuseByDischarge
